import Mathlib

/-!
# Fault-simulation displacement controller and geometry mappers

Shallow embedding of the displacement animation controller and the
parametric geometry mappers of the fault-simulation repository.
Numbers are modelled as rationals (the exact-real idealization of the
JavaScript arithmetic; every constant appearing in the claims is a
dyadic rational, so all claim-level computations are exact).

The controller logic is identical across the component variants up to
the two configuration constants, so it is embedded once, parameterized
by a configuration record.
-/

namespace Ctrl

/-- Per-variant configuration constants (`MAX_DISPLACEMENT`,
`ANIMATION_DURATION` in the source components). -/
structure Config where
  maxDisplacement : ℚ
  animationDuration : ℚ
deriving DecidableEq

/-- Controller state: `displacement` / `isPlaying` React state plus the
`startTimeRef` / `startDisplacementRef` refs.  In the source the refs are
initialized to `0` and the "unset" test is JavaScript truthiness of
`startTimeRef.current`, i.e. comparison with `0`. -/
structure State where
  displacement : ℚ
  isPlaying : Bool
  startTime : ℚ
  startDisplacement : ℚ
deriving DecidableEq

/-- Initial state: `useState(0)`, `useState(false)`, refs `0`. -/
def initState : State := ⟨0, false, 0, 0⟩

/-- `eased = 1 - Math.pow(1 - progress, 3)` (ease-out cubic). -/
def easedCubic (progress : ℚ) : ℚ := 1 - (1 - progress) ^ 3

/-- The `animate(timestamp)` frame callback:
captures the start markers when `startTimeRef.current` is falsy (`= 0`),
computes `elapsed`, `progress = min(elapsed / ANIMATION_DURATION, 1)`,
applies the cubic ease-out and interpolates from the captured start
displacement toward `MAX_DISPLACEMENT`; sets `isPlaying = false` once
`progress >= 1`. -/
def tick (cfg : Config) (timestamp : ℚ) (s : State) : State :=
  let s1 := if s.startTime = 0 then
      { s with startTime := timestamp, startDisplacement := s.displacement }
    else s
  let elapsed := timestamp - s1.startTime
  let progress := min (elapsed / cfg.animationDuration) 1
  let eased := easedCubic progress
  let newDisplacement :=
    s1.startDisplacement + (cfg.maxDisplacement - s1.startDisplacement) * eased
  { s1 with
      displacement := newDisplacement
      isPlaying := if 1 ≤ progress then false else s1.isPlaying }

/-- `handlePlayPause()`: when `displacement >= MAX_DISPLACEMENT` first
resets displacement and both refs, then toggles `isPlaying`.  The
`useEffect` on `isPlaying` additionally zeroes `startTimeRef.current`
(re-marking the start as unset) when the toggle lands on playing. -/
def handlePlayPause (cfg : Config) (s : State) : State :=
  let s1 := if cfg.maxDisplacement ≤ s.displacement then
      { s with displacement := 0, startTime := 0, startDisplacement := 0 }
    else s
  let s2 := { s1 with isPlaying := !s.isPlaying }
  if s2.isPlaying then { s2 with startTime := 0 } else s2

/-- `handleReset()`: stops playing, zeroes displacement and both refs. -/
def handleReset (_s : State) : State := ⟨0, false, 0, 0⟩

/-- `handleSliderChange(value)`: stops playing and assigns the slider
value to `displacement` directly (the handler itself performs no
clamping; the range restriction lives in the host `Slider` element). -/
def handleSliderChange (v : ℚ) (s : State) : State :=
  { s with isPlaying := false, displacement := v }

/-- `clamp(v, lo, hi)` as used by the specification's wording. -/
def clampValue (v lo hi : ℚ) : ℚ := max lo (min v hi)

end Ctrl

namespace BlockSim

/-- `MAX_DISPLACEMENT = 40` of the isometric-block variant. -/
def MAX_DISPLACEMENT : ℚ := 40

/-- `ANIMATION_DURATION = 3000` of the isometric-block variant. -/
def ANIMATION_DURATION : ℚ := 3000

/-- The isometric-block variant's controller configuration. -/
def cfg : Ctrl.Config := ⟨MAX_DISPLACEMENT, ANIMATION_DURATION⟩

end BlockSim

/-- 2D point with rational coordinates. -/
structure Vec2 where
  x : ℚ
  y : ℚ
deriving DecidableEq

/-- A pair of per-plate 2D offsets/translations (left block, right block). -/
structure BlockTransforms where
  left : Vec2
  right : Vec2
deriving DecidableEq

/-- Fault type enumeration `strike-slip | normal | reverse`. -/
inductive FaultType
  | strikeSlip
  | normal
  | reverse
deriving DecidableEq

namespace CurvedSim

/-- `MAX_DISPLACEMENT = 50` of the curved-plates variant. -/
def MAX_DISPLACEMENT : ℚ := 50

/-- `ANIMATION_DURATION = 3500` of the curved-plates variant. -/
def ANIMATION_DURATION : ℚ := 3500

/-- The curved-plates variant's controller configuration. -/
def cfg : Ctrl.Config := ⟨MAX_DISPLACEMENT, ANIMATION_DURATION⟩

/-- `svgWidth = 320`. -/
def svgWidth : ℚ := 320

/-- `svgHeight = 260`. -/
def svgHeight : ℚ := 260

/-- `centerX = svgWidth / 2`. -/
def centerX : ℚ := svgWidth / 2

/-- `centerY = svgHeight / 2`. -/
def centerY : ℚ := svgHeight / 2

/-- `const d = displacement / MAX_DISPLACEMENT` — the normalized
displacement computed at component level in the curved-plates variant. -/
def normalizedD (displacement : ℚ) : ℚ := displacement / MAX_DISPLACEMENT

/-- `const offset = d * 35` in the strike-slip branch of
`generatePlatePaths`. -/
def strikeSlipOffset (d : ℚ) : ℚ := d * 35

/-- Output of the strike-slip branch of `generatePlatePaths`: the path
points (in source order: the `M`/`L` vertices followed by the quadratic
control and end points) of the two plate outlines and the fault trace,
plus the per-plate group translations. -/
structure StrikeSlipGeom where
  leftPlate : List Vec2
  rightPlate : List Vec2
  faultTrace : List Vec2
  leftTranslate : Vec2
  rightTranslate : Vec2
deriving DecidableEq

/-- The strike-slip branch of `generatePlatePaths`, as a function of the
normalized displacement `d` it closes over. -/
def generatePlatePathsStrikeSlip (d : ℚ) : StrikeSlipGeom :=
  let offset := strikeSlipOffset d
  { leftPlate :=
      [⟨30, centerY - 60⟩, ⟨30, centerY + 80⟩,
       ⟨centerX - 8 - offset, centerY + 80⟩,
       ⟨centerX - 5 - offset, centerY + 40⟩, ⟨centerX - 10 - offset, centerY⟩,
       ⟨centerX - 5 - offset, centerY - 40⟩, ⟨centerX - 8 - offset, centerY - 60⟩]
    rightPlate :=
      [⟨svgWidth - 30, centerY - 60⟩, ⟨svgWidth - 30, centerY + 80⟩,
       ⟨centerX + 8 + offset, centerY + 80⟩,
       ⟨centerX + 5 + offset, centerY + 40⟩, ⟨centerX + 10 + offset, centerY⟩,
       ⟨centerX + 5 + offset, centerY - 40⟩, ⟨centerX + 8 + offset, centerY - 60⟩]
    faultTrace :=
      [⟨centerX, centerY - 70⟩, ⟨centerX - 3, centerY - 35⟩, ⟨centerX, centerY⟩,
       ⟨centerX + 3, centerY + 35⟩, ⟨centerX, centerY + 90⟩]
    leftTranslate := ⟨0, -offset * (8/10)⟩
    rightTranslate := ⟨0, offset * (8/10)⟩ }

/-- Component-level pipeline of the curved-plates variant: the paths are
generated from the normalized `d = displacement / MAX_DISPLACEMENT`. -/
def platePathsStrikeSlip (displacement : ℚ) : StrikeSlipGeom :=
  generatePlatePathsStrikeSlip (normalizedD displacement)

/-- Stress-arrow opacity `Math.min(d * 2, 0.7)` in `getStressArrows`,
a function of the normalized `d`. -/
def stressOpacity (d : ℚ) : ℚ := min (d * 2) (7/10)

end CurvedSim

namespace BlockSim

/-- `getBlockTransforms()` of the isometric-block variant.  Note the
source binds `const d = displacement` — the raw displacement value, not
a normalized ratio. -/
def getBlockTransforms (ty : FaultType) (displacement : ℚ) : BlockTransforms :=
  let d := displacement
  match ty with
  | .strikeSlip => ⟨⟨-d * (8/10), 0⟩, ⟨d * (8/10), 0⟩⟩
  | .normal => ⟨⟨-d * (3/10), d * (6/10)⟩, ⟨d * (3/10), -d * (2/10)⟩⟩
  | .reverse => ⟨⟨d * (3/10), -d * (6/10)⟩, ⟨-d * (3/10), d * (2/10)⟩⟩

/-- Modelled from the spec: §4.2 ("Normalization") requires every mapper
variant to compute `d = displacement / maxDisplacement` before using it
in any offset formula.  This is `getBlockTransforms` with that
normalized `d`, stated for comparison with the source definition above
(refinement for claim C7); it is NOT what the source computes. -/
def getBlockTransformsNormalized (ty : FaultType) (displacement : ℚ) : BlockTransforms :=
  let d := displacement / MAX_DISPLACEMENT
  match ty with
  | .strikeSlip => ⟨⟨-d * (8/10), 0⟩, ⟨d * (8/10), 0⟩⟩
  | .normal => ⟨⟨-d * (3/10), d * (6/10)⟩, ⟨d * (3/10), -d * (2/10)⟩⟩
  | .reverse => ⟨⟨d * (3/10), -d * (6/10)⟩, ⟨-d * (3/10), d * (2/10)⟩⟩

end BlockSim

namespace RidgeSim

/-- `MAX_DISPLACEMENT = 150` of the Taklamakan ridge variant. -/
def MAX_DISPLACEMENT : ℚ := 150

/-- `ANIMATION_DURATION = 8000` of the Taklamakan ridge variant. -/
def ANIMATION_DURATION : ℚ := 8000

/-- The ridge variant's controller configuration. -/
def cfg : Ctrl.Config := ⟨MAX_DISPLACEMENT, ANIMATION_DURATION⟩

/-- The two ridge blocks' animated offsets in `FaultSimulation`: left
block `{ x: -displacement * 0.7, y: displacement * 0.3 }`, right block
`{ x: displacement * 0.7, y: -displacement * 0.3 }` — computed directly
from the raw displacement. -/
def blockOffsets (displacement : ℚ) : BlockTransforms :=
  ⟨⟨-displacement * (7/10), displacement * (3/10)⟩,
   ⟨displacement * (7/10), -displacement * (3/10)⟩⟩

end RidgeSim

/-- 3D vector with rational components. -/
structure Vec3 where
  x : ℚ
  y : ℚ
  z : ℚ
deriving DecidableEq

/-- Plate box dimensions `{ width, height, depth }`. -/
structure Size3 where
  width : ℚ
  height : ℚ
  depth : ℚ
deriving DecidableEq

namespace Plate3D

/-- The numeric part of a `PlateProps` descriptor of `TectonicPlate3D`
(id, name and color are presentational strings, out of scope). -/
structure PlateProps where
  position : Vec3
  rotation : Vec3
  size : Size3
  velocity : Option Vec3
deriving DecidableEq

/-- `animatedPos` of `TectonicPlate3D`: componentwise
`position + (velocity?.c || 0) * displacement * 50`. -/
def animatedPos (plate : PlateProps) (displacement : ℚ) : Vec3 :=
  { x := plate.position.x + (plate.velocity.map Vec3.x).getD 0 * displacement * 50
    y := plate.position.y + (plate.velocity.map Vec3.y).getD 0 * displacement * 50
    z := plate.position.z + (plate.velocity.map Vec3.z).getD 0 * displacement * 50 }

/-- The rendered `groupTransform`: a `translate3d` by `animatedPos`
followed by `rotateX/rotateY/rotateZ` by the per-plate `rotation`. -/
structure GroupTransform where
  translate : Vec3
  rotate : Vec3
deriving DecidableEq

/-- `groupTransform` of `TectonicPlate3D`: translation is the animated
position; rotation is taken verbatim from the plate descriptor. -/
def groupTransform (plate : PlateProps) (displacement : ℚ) : GroupTransform :=
  ⟨animatedPos plate displacement, plate.rotation⟩

/-- The Pacific plate descriptor of the 2-plate (San Andreas) scenario
in `SCENARIOS`. -/
def pacificPlate : PlateProps :=
  { position := ⟨-55, 0, 0⟩
    rotation := ⟨55, 0, -25⟩
    size := ⟨90, 35, 70⟩
    velocity := some ⟨0, -(6/10), 0⟩ }

end Plate3D

namespace Scenario3D

/-- `MAX_DISPLACEMENT = 1` of the multi-plate scenario variant. -/
def MAX_DISPLACEMENT : ℚ := 1

/-- `ANIMATION_DURATION = 4000` of the multi-plate scenario variant. -/
def ANIMATION_DURATION : ℚ := 4000

/-- The scenario variant's controller configuration. -/
def cfg : Ctrl.Config := ⟨MAX_DISPLACEMENT, ANIMATION_DURATION⟩

end Scenario3D

namespace Ctrl

/-- The displacement value a tick computes when the start markers hold
`d0` (start displacement) and the elapsed time is `e`:
`d0 + (maxDisplacement - d0) * easedCubic (min (e / duration) 1)`. -/
def easeFrom (cfg : Config) (d0 e : ℚ) : ℚ :=
  d0 + (cfg.maxDisplacement - d0) * easedCubic (min (e / cfg.animationDuration) 1)

/-- The public operations of the controller: the play/pause toggle, the
reset button, the slider, and the host's frame callback. -/
inductive Op
  | playPause
  | reset
  | slider (v : ℚ)
  | tick (t : ℚ)

/-- Apply one public operation to a controller state. -/
def applyOp (cfg : Config) : Op → State → State
  | .playPause, s => handlePlayPause cfg s
  | .reset, s => handleReset s
  | .slider v, s => handleSliderChange v s
  | .tick t, s => tick cfg t s

/-- Run a sequence of public operations from a state. -/
def runOps (cfg : Config) (s : State) : List Op → State
  | [] => s
  | op :: rest => runOps cfg (applyOp cfg op s) rest

/-- Run a sequence of frame callbacks from a state. -/
def runTicks (cfg : Config) (s : State) : List ℚ → State
  | [] => s
  | t :: ts => runTicks cfg (tick cfg t s) ts

/-- The list of states visited while running a sequence of frame
callbacks (the initial state included). -/
def tickTrace (cfg : Config) (s : State) : List ℚ → List State
  | [] => [s]
  | t :: ts => s :: tickTrace cfg (tick cfg t s) ts

/-- `b` is at most `t`, where a missing `b` poses no constraint. -/
def leOpt : Option ℚ → ℚ → Prop
  | none, _ => True
  | some b, t => b ≤ t

/-- Well-formed operation sequences under the host contract: slider
values stay inside `[0, maxDisplacement]` (the host `Slider` element has
`min 0`/`max maxDisplacement`) and frame-callback timestamps are
non-decreasing (§5's ordering guarantee), `lb` being the preceding
timestamp if any. -/
def GoodOps (cfg : Config) : Option ℚ → List Op → Prop
  | _, [] => True
  | lb, .playPause :: rest => GoodOps cfg lb rest
  | lb, .reset :: rest => GoodOps cfg lb rest
  | lb, .slider v :: rest => 0 ≤ v ∧ v ≤ cfg.maxDisplacement ∧ GoodOps cfg lb rest
  | lb, .tick t :: rest => leOpt lb t ∧ GoodOps cfg (some t) rest

/-- Range invariant carried through a run: displacement and the captured
start displacement lie in `[0, maxDisplacement]`, and the captured start
time is either unset (`0`) or at most the preceding tick timestamp. -/
def InRange (cfg : Config) (lb : Option ℚ) (s : State) : Prop :=
  0 ≤ s.displacement ∧ s.displacement ≤ cfg.maxDisplacement ∧
  0 ≤ s.startDisplacement ∧ s.startDisplacement ≤ cfg.maxDisplacement ∧
  (s.startTime = 0 ∨ ∃ b, lb = some b ∧ s.startTime ≤ b)

/-- States reachable from the initial state by the public operations
(with arbitrary slider values and timestamps). -/
inductive Reachable (cfg : Config) : State → Prop
  | init : Reachable cfg initState
  | playPause {s} : Reachable cfg s → Reachable cfg (handlePlayPause cfg s)
  | reset {s} : Reachable cfg s → Reachable cfg (handleReset s)
  | slider {s} (v : ℚ) : Reachable cfg s → Reachable cfg (handleSliderChange v s)
  | tick {s} (t : ℚ) : Reachable cfg s → Reachable cfg (tick cfg t s)

end Ctrl

namespace Ctrl

/-- The ease-out cubic never exceeds `1` for progress at most `1`. -/
theorem easedCubic_le_one {p : ℚ} (h : p ≤ 1) : easedCubic p ≤ 1 := by
  have h3 : 0 ≤ (1 - p) ^ 3 := pow_nonneg (by linarith) 3
  unfold easedCubic
  linarith

/-- The ease-out cubic is strictly below `1` for progress below `1`. -/
theorem easedCubic_lt_one {p : ℚ} (h : p < 1) : easedCubic p < 1 := by
  have h3 : 0 < (1 - p) ^ 3 := pow_pos (by linarith) 3
  unfold easedCubic
  linarith

/-- The ease-out cubic is non-negative on `[0, 1]`. -/
theorem easedCubic_nonneg {p : ℚ} (h0 : 0 ≤ p) (h1 : p ≤ 1) : 0 ≤ easedCubic p := by
  have h3 : (1 - p) ^ 3 ≤ 1 ^ 3 := pow_le_pow_left₀ (by linarith) (by linarith) 3
  unfold easedCubic
  simp only [one_pow] at h3
  linarith

/-- The ease-out cubic is monotone on `(-∞, 1]`. -/
theorem easedCubic_mono {p q : ℚ} (hpq : p ≤ q) (hq : q ≤ 1) :
    easedCubic p ≤ easedCubic q := by
  have h3 : (1 - q) ^ 3 ≤ (1 - p) ^ 3 :=
    pow_le_pow_left₀ (by linarith) (by linarith) 3
  unfold easedCubic
  linarith

/-- A tick at elapsed time `0` reproduces the start displacement. -/
theorem easeFrom_zero (cfg : Config) (d0 : ℚ) : easeFrom cfg d0 0 = d0 := by
  have h : min ((0 : ℚ) / cfg.animationDuration) 1 = 0 := by
    rw [zero_div]
    exact min_eq_left zero_le_one
  simp [easeFrom, h, easedCubic]

/-- For a positive duration, the tick displacement is monotone in the
elapsed time as long as the start displacement is at most the maximum. -/
theorem easeFrom_mono (cfg : Config) (hD : 0 < cfg.animationDuration)
    {d0 : ℚ} (hd0 : d0 ≤ cfg.maxDisplacement) {e e' : ℚ} (h : e ≤ e') :
    easeFrom cfg d0 e ≤ easeFrom cfg d0 e' := by
  have h1 : e / cfg.animationDuration ≤ e' / cfg.animationDuration := by gcongr
  have h2 := easedCubic_mono (min_le_min h1 le_rfl)
    (min_le_right (e' / cfg.animationDuration) 1)
  have h3 : 0 ≤ cfg.maxDisplacement - d0 := sub_nonneg.2 hd0
  have h4 := mul_le_mul_of_nonneg_left h2 h3
  unfold easeFrom
  linarith

/-- Once the elapsed time reaches the duration, the tick displacement is
exactly the maximum displacement. -/
theorem easeFrom_of_duration_le (cfg : Config) (hD : 0 < cfg.animationDuration)
    (d0 : ℚ) {e : ℚ} (h : cfg.animationDuration ≤ e) :
    easeFrom cfg d0 e = cfg.maxDisplacement := by
  have h1 : (1 : ℚ) ≤ e / cfg.animationDuration := (one_le_div hD).2 h
  unfold easeFrom
  rw [min_eq_right h1]
  simp [easedCubic]

/-- For non-negative elapsed time, the tick displacement stays at most
the maximum displacement. -/
theorem easeFrom_le_max (cfg : Config)
    {d0 : ℚ} (hd0 : d0 ≤ cfg.maxDisplacement) (e : ℚ) :
    easeFrom cfg d0 e ≤ cfg.maxDisplacement := by
  have h2 : easedCubic (min (e / cfg.animationDuration) 1) ≤ 1 :=
    easedCubic_le_one (min_le_right _ _)
  have h3 : 0 ≤ cfg.maxDisplacement - d0 := sub_nonneg.2 hd0
  have h4 := mul_le_mul_of_nonneg_left h2 h3
  unfold easeFrom
  linarith

/-- For non-negative elapsed time, the tick displacement is at least the
start displacement. -/
theorem le_easeFrom (cfg : Config) (hD : 0 < cfg.animationDuration)
    {d0 : ℚ} (hd0 : d0 ≤ cfg.maxDisplacement) {e : ℚ} (he : 0 ≤ e) :
    d0 ≤ easeFrom cfg d0 e := by
  have h0 : 0 ≤ min (e / cfg.animationDuration) 1 :=
    le_min (div_nonneg he hD.le) zero_le_one
  have h2 : 0 ≤ easedCubic (min (e / cfg.animationDuration) 1) :=
    easedCubic_nonneg h0 (min_le_right _ _)
  have h3 : 0 ≤ cfg.maxDisplacement - d0 := sub_nonneg.2 hd0
  have h4 := mul_nonneg h3 h2
  unfold easeFrom
  linarith

/-- A tick finding the start marker unset (`startTime = 0`) captures the
markers and leaves the displacement and playing flag unchanged. -/
theorem tick_capture (cfg : Config) (t : ℚ) (s : State) (h : s.startTime = 0) :
    tick cfg t s = { s with startTime := t, startDisplacement := s.displacement } := by
  have hmin : min ((0 : ℚ) / cfg.animationDuration) 1 = 0 := by
    rw [zero_div]
    exact min_eq_left zero_le_one
  simp [tick, h, sub_self, hmin, easedCubic]

/-- A tick with the start marker already captured interpolates from the
stored start displacement by the elapsed time since the stored start
time, and stops playing exactly when progress reaches `1`. -/
theorem tick_no_capture (cfg : Config) (t : ℚ) (s : State) (h : s.startTime ≠ 0) :
    tick cfg t s = { s with
      displacement := easeFrom cfg s.startDisplacement (t - s.startTime)
      isPlaying :=
        if 1 ≤ min ((t - s.startTime) / cfg.animationDuration) 1 then false
        else s.isPlaying } := by
  simp [tick, h, easeFrom]

end Ctrl

/-- C5: after `reset()`, a stale frame callback firing at any timestamp
`t` leaves the displacement equal to `0`: the reset has cleared the
start marker, so the stale tick merely re-captures the markers and
reproduces the reset displacement `0`. -/
theorem C5_reset_stale_tick_keeps_zero (cfg : Ctrl.Config) (s : Ctrl.State) (t : ℚ) :
    (Ctrl.tick cfg t (Ctrl.handleReset s)).displacement = 0 := by
  rw [Ctrl.tick_capture cfg t (Ctrl.handleReset s) rfl]
  rfl

/-- C9: for every plate descriptor carrying a velocity and every
displacement, `TectonicPlate3D` computes the animated position
componentwise as `position + velocity * displacement * 50`, and the
rotation in the rendered group transform is the descriptor's fixed
per-plate rotation, independent of the displacement. -/
theorem C9_plate3d_position_and_rotation (plate : Plate3D.PlateProps) (v : Vec3)
    (displacement : ℚ) (hv : plate.velocity = some v) :
    Plate3D.animatedPos plate displacement =
      ⟨plate.position.x + v.x * displacement * 50,
       plate.position.y + v.y * displacement * 50,
       plate.position.z + v.z * displacement * 50⟩ ∧
    (Plate3D.groupTransform plate displacement).rotate = plate.rotation := by
  constructor
  · simp [Plate3D.animatedPos, hv]
  · rfl

/-- C9 witness: the Pacific plate of the San Andreas scenario at
displacement `1/2`. -/
theorem C9_witness :
    Plate3D.pacificPlate.velocity = some ⟨0, -(6/10), 0⟩ ∧
    (Plate3D.animatedPos Plate3D.pacificPlate (1/2) =
      ⟨Plate3D.pacificPlate.position.x + 0 * (1/2) * 50,
       Plate3D.pacificPlate.position.y + -(6/10) * (1/2) * 50,
       Plate3D.pacificPlate.position.z + 0 * (1/2) * 50⟩ ∧
     (Plate3D.groupTransform Plate3D.pacificPlate (1/2)).rotate =
       Plate3D.pacificPlate.rotation) :=
  ⟨rfl, C9_plate3d_position_and_rotation Plate3D.pacificPlate ⟨0, -(6/10), 0⟩ (1/2) rfl⟩

/-- C8: the strike-slip mapper of the curved-plates variant at
normalized displacement `d = 1/2`: the maximum lateral offset is `35`
(`offset = d * 35`), the offset at `d = 1/2` is exactly `17.5 = 35/2`,
every point of each plate's fault-facing curve is shifted from its
at-rest position by exactly that magnitude — leftward (`-35/2`) for the
left plate and rightward (`+35/2`) for the right plate — and the two
per-plate group translations are equal and opposite. -/
theorem C8_strike_slip_half_offset :
    CurvedSim.strikeSlipOffset 1 = 35 ∧
    CurvedSim.strikeSlipOffset (1/2) = 35/2 ∧
    ((CurvedSim.generatePlatePathsStrikeSlip (1/2)).leftPlate.zipWith
        (fun p q => p.x - q.x) (CurvedSim.generatePlatePathsStrikeSlip 0).leftPlate) =
      [0, 0, -(35/2), -(35/2), -(35/2), -(35/2), -(35/2)] ∧
    ((CurvedSim.generatePlatePathsStrikeSlip (1/2)).rightPlate.zipWith
        (fun p q => p.x - q.x) (CurvedSim.generatePlatePathsStrikeSlip 0).rightPlate) =
      [0, 0, 35/2, 35/2, 35/2, 35/2, 35/2] ∧
    (CurvedSim.generatePlatePathsStrikeSlip (1/2)).leftTranslate.y =
      -(CurvedSim.generatePlatePathsStrikeSlip (1/2)).rightTranslate.y := by
  norm_num [CurvedSim.generatePlatePathsStrikeSlip, CurvedSim.strikeSlipOffset,
    CurvedSim.centerX, CurvedSim.centerY, CurvedSim.svgWidth, CurvedSim.svgHeight,
    List.zipWith]

/-- C2 counterexample: the slider-change handler performs no clamping —
`setDisplacement(60)` on the curved-plates variant (maximum `50`) leaves
`displacement = 60`, not `clamp(60, 0, 50) = 50`. -/
theorem C2_counterexample :
    (Ctrl.handleSliderChange 60 Ctrl.initState).displacement = 60 ∧
    Ctrl.clampValue 60 0 CurvedSim.MAX_DISPLACEMENT = 50 ∧
    (Ctrl.handleSliderChange 60 Ctrl.initState).displacement ≠
      Ctrl.clampValue 60 0 CurvedSim.MAX_DISPLACEMENT := by
  norm_num [Ctrl.handleSliderChange, Ctrl.initState, Ctrl.clampValue,
    CurvedSim.MAX_DISPLACEMENT, min_def, max_def]

/-- C2 amended: `setDisplacement(v)` assigns `v` unclamped and stops the
animation; for the values the host slider can deliver — `v` within
`[0, maxDisplacement]` — the result agrees with `clamp(v, 0,
maxDisplacement)`, and `isPlaying` is `false`. -/
theorem C2_slider_in_range (maxD v : ℚ) (s : Ctrl.State)
    (h0 : 0 ≤ v) (h1 : v ≤ maxD) :
    (Ctrl.handleSliderChange v s).displacement = v ∧
    (Ctrl.handleSliderChange v s).displacement = Ctrl.clampValue v 0 maxD ∧
    (Ctrl.handleSliderChange v s).isPlaying = false := by
  refine ⟨rfl, ?_, rfl⟩
  show v = Ctrl.clampValue v 0 maxD
  rw [Ctrl.clampValue, min_eq_left h1, max_eq_right h0]

/-- C2 witness: slider value `20` on the isometric-block variant
(maximum `40`). -/
theorem C2_witness :
    (0 : ℚ) ≤ 20 ∧ (20 : ℚ) ≤ BlockSim.MAX_DISPLACEMENT ∧
    ((Ctrl.handleSliderChange 20 Ctrl.initState).displacement = 20 ∧
     (Ctrl.handleSliderChange 20 Ctrl.initState).displacement =
       Ctrl.clampValue 20 0 BlockSim.MAX_DISPLACEMENT ∧
     (Ctrl.handleSliderChange 20 Ctrl.initState).isPlaying = false) :=
  ⟨by norm_num, by norm_num [BlockSim.MAX_DISPLACEMENT],
   C2_slider_in_range BlockSim.MAX_DISPLACEMENT 20 Ctrl.initState (by norm_num)
     (by norm_num [BlockSim.MAX_DISPLACEMENT])⟩

/-- C1 counterexample: with `maxDisplacement = 40`, `duration = 3000`,
`play()` at `t = 0` and ticks at `0, 1500, 3000`: the first tick stores
start time `0`, which the truthiness test still treats as unset, so the
tick at `1500` re-captures the markers instead of interpolating —
displacement is `0` after `tick(1500)` (the claim predicts `35`), and
after `tick(3000)` it is `35` with `isPlaying` still `true` (the claim
predicts `40` and `false`). -/
theorem C1_counterexample :
    (Ctrl.tick BlockSim.cfg 0
      (Ctrl.handlePlayPause BlockSim.cfg Ctrl.initState)).displacement = 0 ∧
    (Ctrl.tick BlockSim.cfg 1500 (Ctrl.tick BlockSim.cfg 0
      (Ctrl.handlePlayPause BlockSim.cfg Ctrl.initState))).displacement = 0 ∧
    (Ctrl.tick BlockSim.cfg 1500 (Ctrl.tick BlockSim.cfg 0
      (Ctrl.handlePlayPause BlockSim.cfg Ctrl.initState))).displacement ≠ 35 ∧
    (Ctrl.tick BlockSim.cfg 3000 (Ctrl.tick BlockSim.cfg 1500 (Ctrl.tick BlockSim.cfg 0
      (Ctrl.handlePlayPause BlockSim.cfg Ctrl.initState)))).displacement = 35 ∧
    (Ctrl.tick BlockSim.cfg 3000 (Ctrl.tick BlockSim.cfg 1500 (Ctrl.tick BlockSim.cfg 0
      (Ctrl.handlePlayPause BlockSim.cfg Ctrl.initState)))).isPlaying = true := by
  norm_num [Ctrl.tick, Ctrl.handlePlayPause, Ctrl.initState, Ctrl.easedCubic,
    BlockSim.cfg, BlockSim.MAX_DISPLACEMENT, BlockSim.ANIMATION_DURATION, min_def]

/-- C1 amended: with `maxDisplacement = 40`, `duration = 3000` and
`play()` pressed at rest, the claimed trajectory holds whenever the
first tick carries any nonzero timestamp `t0`: `tick(t0)` captures the
markers and leaves displacement `0`, `tick(t0 + 1500)` yields progress
`1/2`, eased `7/8`, displacement `35`, and `tick(t0 + 3000)` yields
displacement `40` with `isPlaying = false`.  (At `t0 = 0` exactly the
first tick's stored start time is still treated as unset and the
schedule shifts by one tick, as the counterexample shows.) -/
theorem C1_play_tick_trajectory (t0 : ℚ) (h : t0 ≠ 0) :
    (Ctrl.tick BlockSim.cfg t0
      (Ctrl.handlePlayPause BlockSim.cfg Ctrl.initState)).displacement = 0 ∧
    (Ctrl.tick BlockSim.cfg (t0 + 1500) (Ctrl.tick BlockSim.cfg t0
      (Ctrl.handlePlayPause BlockSim.cfg Ctrl.initState))).displacement = 35 ∧
    (Ctrl.tick BlockSim.cfg (t0 + 3000) (Ctrl.tick BlockSim.cfg (t0 + 1500)
      (Ctrl.tick BlockSim.cfg t0
        (Ctrl.handlePlayPause BlockSim.cfg Ctrl.initState)))).displacement = 40 ∧
    (Ctrl.tick BlockSim.cfg (t0 + 3000) (Ctrl.tick BlockSim.cfg (t0 + 1500)
      (Ctrl.tick BlockSim.cfg t0
        (Ctrl.handlePlayPause BlockSim.cfg Ctrl.initState)))).isPlaying = false := by
  have hplay : Ctrl.handlePlayPause BlockSim.cfg Ctrl.initState = ⟨0, true, 0, 0⟩ := by
    norm_num [Ctrl.handlePlayPause, Ctrl.initState, BlockSim.cfg, BlockSim.MAX_DISPLACEMENT]
  have h1 : Ctrl.tick BlockSim.cfg t0 (⟨0, true, 0, 0⟩ : Ctrl.State) =
      ⟨0, true, t0, 0⟩ := by
    rw [Ctrl.tick_capture BlockSim.cfg t0 _ rfl]
  have h2 : Ctrl.tick BlockSim.cfg (t0 + 1500) (⟨0, true, t0, 0⟩ : Ctrl.State) =
      ⟨35, true, t0, 0⟩ := by
    rw [Ctrl.tick_no_capture BlockSim.cfg (t0 + 1500) _ h]
    norm_num [Ctrl.easeFrom, Ctrl.easedCubic, BlockSim.cfg,
      BlockSim.MAX_DISPLACEMENT, BlockSim.ANIMATION_DURATION, min_def]
  have h3 : Ctrl.tick BlockSim.cfg (t0 + 3000) (⟨35, true, t0, 0⟩ : Ctrl.State) =
      ⟨40, false, t0, 0⟩ := by
    rw [Ctrl.tick_no_capture BlockSim.cfg (t0 + 3000) _ h]
    norm_num [Ctrl.easeFrom, Ctrl.easedCubic, BlockSim.cfg,
      BlockSim.MAX_DISPLACEMENT, BlockSim.ANIMATION_DURATION, min_def]
  rw [hplay, h1, h2, h3]
  exact ⟨rfl, rfl, rfl, rfl⟩

/-- C1 witness: the amended trajectory at first-tick timestamp `1`. -/
theorem C1_witness :
    (1 : ℚ) ≠ 0 ∧
    ((Ctrl.tick BlockSim.cfg 1
      (Ctrl.handlePlayPause BlockSim.cfg Ctrl.initState)).displacement = 0 ∧
    (Ctrl.tick BlockSim.cfg (1 + 1500) (Ctrl.tick BlockSim.cfg 1
      (Ctrl.handlePlayPause BlockSim.cfg Ctrl.initState))).displacement = 35 ∧
    (Ctrl.tick BlockSim.cfg (1 + 3000) (Ctrl.tick BlockSim.cfg (1 + 1500)
      (Ctrl.tick BlockSim.cfg 1
        (Ctrl.handlePlayPause BlockSim.cfg Ctrl.initState)))).displacement = 40 ∧
    (Ctrl.tick BlockSim.cfg (1 + 3000) (Ctrl.tick BlockSim.cfg (1 + 1500)
      (Ctrl.tick BlockSim.cfg 1
        (Ctrl.handlePlayPause BlockSim.cfg Ctrl.initState)))).isPlaying = false) :=
  ⟨by norm_num, C1_play_tick_trajectory 1 (by norm_num)⟩

/-- C10: the "start marker unset" test is the numeric truthiness of the
stored start time.  Playing from a non-playing state and ticking first
at timestamp exactly `0`: that tick stores start time `0` (still treated
as unset) and leaves displacement unchanged (`eased(0) = 0`); the next
tick, at any nonzero `t2`, re-captures both markers (start time `t2`,
start displacement the current displacement) and still leaves
displacement unchanged; a subsequent tick at `t3` measures elapsed time
as `t3 - t2`, i.e. from the second tick's timestamp. -/
theorem C10_zero_timestamp_recapture (cfg : Ctrl.Config) (s0 : Ctrl.State)
    (hp : s0.isPlaying = false) (t2 t3 : ℚ) (h2 : t2 ≠ 0) :
    (Ctrl.tick cfg 0 (Ctrl.handlePlayPause cfg s0)).startTime = 0 ∧
    (Ctrl.tick cfg 0 (Ctrl.handlePlayPause cfg s0)).displacement =
      (Ctrl.handlePlayPause cfg s0).displacement ∧
    (Ctrl.tick cfg t2 (Ctrl.tick cfg 0 (Ctrl.handlePlayPause cfg s0))).startTime = t2 ∧
    (Ctrl.tick cfg t2 (Ctrl.tick cfg 0
      (Ctrl.handlePlayPause cfg s0))).startDisplacement =
      (Ctrl.tick cfg 0 (Ctrl.handlePlayPause cfg s0)).displacement ∧
    (Ctrl.tick cfg t2 (Ctrl.tick cfg 0 (Ctrl.handlePlayPause cfg s0))).displacement =
      (Ctrl.tick cfg 0 (Ctrl.handlePlayPause cfg s0)).displacement ∧
    (Ctrl.tick cfg t3 (Ctrl.tick cfg t2 (Ctrl.tick cfg 0
      (Ctrl.handlePlayPause cfg s0)))).displacement =
      Ctrl.easeFrom cfg
        (Ctrl.tick cfg 0 (Ctrl.handlePlayPause cfg s0)).displacement (t3 - t2) := by
  have hsp : (Ctrl.handlePlayPause cfg s0).startTime = 0 := by
    simp [Ctrl.handlePlayPause, hp]
  have h1 := Ctrl.tick_capture cfg 0 (Ctrl.handlePlayPause cfg s0) hsp
  have hst1 : (Ctrl.tick cfg 0 (Ctrl.handlePlayPause cfg s0)).startTime = 0 := by
    rw [h1]
  have hd1 : (Ctrl.tick cfg 0 (Ctrl.handlePlayPause cfg s0)).displacement =
      (Ctrl.handlePlayPause cfg s0).displacement := by
    rw [h1]
  have h2cap := Ctrl.tick_capture cfg t2 (Ctrl.tick cfg 0 (Ctrl.handlePlayPause cfg s0)) hst1
  have hst2 : (Ctrl.tick cfg t2 (Ctrl.tick cfg 0
      (Ctrl.handlePlayPause cfg s0))).startTime = t2 := by
    rw [h2cap]
  have hsd2 : (Ctrl.tick cfg t2 (Ctrl.tick cfg 0
      (Ctrl.handlePlayPause cfg s0))).startDisplacement =
      (Ctrl.tick cfg 0 (Ctrl.handlePlayPause cfg s0)).displacement := by
    rw [h2cap]
  have hd2 : (Ctrl.tick cfg t2 (Ctrl.tick cfg 0
      (Ctrl.handlePlayPause cfg s0))).displacement =
      (Ctrl.tick cfg 0 (Ctrl.handlePlayPause cfg s0)).displacement := by
    rw [h2cap]
  have h3nc := Ctrl.tick_no_capture cfg t3
    (Ctrl.tick cfg t2 (Ctrl.tick cfg 0 (Ctrl.handlePlayPause cfg s0)))
    (by rw [hst2]; exact h2)
  have hd3 : (Ctrl.tick cfg t3 (Ctrl.tick cfg t2 (Ctrl.tick cfg 0
      (Ctrl.handlePlayPause cfg s0)))).displacement =
      Ctrl.easeFrom cfg
        (Ctrl.tick cfg 0 (Ctrl.handlePlayPause cfg s0)).displacement (t3 - t2) := by
    rw [h3nc]
    rw [show (Ctrl.tick cfg t2 (Ctrl.tick cfg 0
      (Ctrl.handlePlayPause cfg s0))).startDisplacement =
      (Ctrl.tick cfg 0 (Ctrl.handlePlayPause cfg s0)).displacement from hsd2, hst2]
  exact ⟨hst1, hd1, hst2, hsd2, hd2, hd3⟩

/-- C10 witness: the isometric-block configuration, playing from the
initial state, with the second tick at `16` and the third at `1516`. -/
theorem C10_witness :
    Ctrl.initState.isPlaying = false ∧ (16 : ℚ) ≠ 0 ∧
    ((Ctrl.tick BlockSim.cfg 0 (Ctrl.handlePlayPause BlockSim.cfg Ctrl.initState)).startTime = 0 ∧
    (Ctrl.tick BlockSim.cfg 0 (Ctrl.handlePlayPause BlockSim.cfg Ctrl.initState)).displacement =
      (Ctrl.handlePlayPause BlockSim.cfg Ctrl.initState).displacement ∧
    (Ctrl.tick BlockSim.cfg 16 (Ctrl.tick BlockSim.cfg 0
      (Ctrl.handlePlayPause BlockSim.cfg Ctrl.initState))).startTime = 16 ∧
    (Ctrl.tick BlockSim.cfg 16 (Ctrl.tick BlockSim.cfg 0
      (Ctrl.handlePlayPause BlockSim.cfg Ctrl.initState))).startDisplacement =
      (Ctrl.tick BlockSim.cfg 0 (Ctrl.handlePlayPause BlockSim.cfg Ctrl.initState)).displacement ∧
    (Ctrl.tick BlockSim.cfg 16 (Ctrl.tick BlockSim.cfg 0
      (Ctrl.handlePlayPause BlockSim.cfg Ctrl.initState))).displacement =
      (Ctrl.tick BlockSim.cfg 0 (Ctrl.handlePlayPause BlockSim.cfg Ctrl.initState)).displacement ∧
    (Ctrl.tick BlockSim.cfg 1516 (Ctrl.tick BlockSim.cfg 16 (Ctrl.tick BlockSim.cfg 0
      (Ctrl.handlePlayPause BlockSim.cfg Ctrl.initState)))).displacement =
      Ctrl.easeFrom BlockSim.cfg
        (Ctrl.tick BlockSim.cfg 0
          (Ctrl.handlePlayPause BlockSim.cfg Ctrl.initState)).displacement (1516 - 16)) :=
  ⟨rfl, by norm_num,
   C10_zero_timestamp_recapture BlockSim.cfg Ctrl.initState rfl 16 1516 (by norm_num)⟩

/-- C7 counterexample: the isometric-block mapper does not normalize —
`getBlockTransforms` binds `d` to the raw displacement, so at
displacement `40` (the variant's maximum, normalized `d = 1`) the
strike-slip left-block offset is `-32 = -0.8 * 40`, whereas the
normalized reading of the same formulas (modelled from the spec) gives
`-0.8 * (40 / 40) = -4/5`; the two mappers disagree. -/
theorem C7_counterexample :
    (BlockSim.getBlockTransforms .strikeSlip 40).left.x = -32 ∧
    (BlockSim.getBlockTransformsNormalized .strikeSlip 40).left.x = -(4/5) ∧
    BlockSim.getBlockTransforms .strikeSlip 40 ≠
      BlockSim.getBlockTransformsNormalized .strikeSlip 40 := by
  refine ⟨by norm_num [BlockSim.getBlockTransforms], ?_, ?_⟩
  · norm_num [BlockSim.getBlockTransformsNormalized, BlockSim.MAX_DISPLACEMENT]
  · intro hEq
    have hx : (BlockSim.getBlockTransforms .strikeSlip 40).left.x =
        (BlockSim.getBlockTransformsNormalized .strikeSlip 40).left.x := by
      rw [hEq]
    norm_num [BlockSim.getBlockTransforms, BlockSim.getBlockTransformsNormalized,
      BlockSim.MAX_DISPLACEMENT] at hx

/-- C7 amended: only the curved-plates variant computes the normalized
`d = displacement / maxDisplacement` and feeds it to its offset
formulas; the isometric-block mapper and the ridge mapper apply constant
multiples of the raw displacement (so their offsets scale with the raw
displacement range), and the 3D scenario variant's raw displacement
coincides with the normalized value only because its maximum is `1`. -/
theorem C7_normalization_by_variant (displacement : ℚ) :
    CurvedSim.platePathsStrikeSlip displacement =
      CurvedSim.generatePlatePathsStrikeSlip
        (displacement / CurvedSim.MAX_DISPLACEMENT) ∧
    (CurvedSim.platePathsStrikeSlip displacement).leftTranslate.y =
      -((displacement / CurvedSim.MAX_DISPLACEMENT) * 35) * (8/10) ∧
    (BlockSim.getBlockTransforms .strikeSlip displacement).left =
      ⟨-displacement * (8/10), 0⟩ ∧
    (RidgeSim.blockOffsets displacement).left =
      ⟨-displacement * (7/10), displacement * (3/10)⟩ ∧
    Scenario3D.MAX_DISPLACEMENT = 1 := by
  refine ⟨rfl, ?_, rfl, rfl, rfl⟩
  simp [CurvedSim.platePathsStrikeSlip, CurvedSim.generatePlatePathsStrikeSlip,
    CurvedSim.normalizedD, CurvedSim.strikeSlipOffset]

namespace Ctrl

/-- Case analysis of the play/pause toggle: pausing keeps every field
but the playing flag (unless displacement has reached the maximum, in
which case everything is reset); playing additionally re-marks the start
time as unset. -/
theorem handlePlayPause_eq (cfg : Config) (s : State) :
    handlePlayPause cfg s =
      if s.isPlaying then
        (if cfg.maxDisplacement ≤ s.displacement then ⟨0, false, 0, 0⟩
         else { s with isPlaying := false })
      else
        (if cfg.maxDisplacement ≤ s.displacement then ⟨0, true, 0, 0⟩
         else { s with isPlaying := true, startTime := 0 }) := by
  unfold handlePlayPause
  by_cases hc : cfg.maxDisplacement ≤ s.displacement <;>
    by_cases hb : s.isPlaying = true <;>
      simp [hc, hb]

/-- The play/pause toggle preserves the range invariant. -/
theorem inRange_playPause (cfg : Config) (lb : Option ℚ) (s : State)
    (hs : InRange cfg lb s) : InRange cfg lb (handlePlayPause cfg s) := by
  obtain ⟨h1, h2, h3, h4, h5⟩ := hs
  rw [handlePlayPause_eq]
  by_cases hc : cfg.maxDisplacement ≤ s.displacement <;>
    by_cases hb : s.isPlaying = true <;>
      simp only [hc, hb, if_true, if_false, ite_true, ite_false,
        Bool.false_eq_true, if_neg, if_pos]
  · exact ⟨le_rfl, h1.trans h2, le_rfl, h1.trans h2, Or.inl rfl⟩
  · exact ⟨le_rfl, h1.trans h2, le_rfl, h1.trans h2, Or.inl rfl⟩
  · exact ⟨h1, h2, h3, h4, h5⟩
  · exact ⟨h1, h2, h3, h4, Or.inl rfl⟩

/-- A reset preserves (re-establishes) the range invariant. -/
theorem inRange_reset (cfg : Config) (lb : Option ℚ) (s : State)
    (hmax : 0 ≤ cfg.maxDisplacement) : InRange cfg lb (handleReset s) :=
  ⟨le_rfl, hmax, le_rfl, hmax, Or.inl rfl⟩

/-- An in-range slider value preserves the range invariant. -/
theorem inRange_slider (cfg : Config) (lb : Option ℚ) (v : ℚ) (s : State)
    (hs : InRange cfg lb s) (h0 : 0 ≤ v) (h1 : v ≤ cfg.maxDisplacement) :
    InRange cfg lb (handleSliderChange v s) := by
  obtain ⟨_, _, h3, h4, h5⟩ := hs
  exact ⟨h0, h1, h3, h4, h5⟩

/-- A tick whose timestamp respects the ordering bound preserves the
range invariant, the bound advancing to the tick's timestamp. -/
theorem inRange_tick (cfg : Config) (hD : 0 < cfg.animationDuration)
    (lb : Option ℚ) (t : ℚ) (s : State) (hs : InRange cfg lb s) (hlb : leOpt lb t) :
    InRange cfg (some t) (tick cfg t s) := by
  obtain ⟨h1, h2, h3, h4, h5⟩ := hs
  by_cases h0 : s.startTime = 0
  · rw [tick_capture cfg t s h0]
    exact ⟨h1, h2, h1, h2, Or.inr ⟨t, rfl, le_rfl⟩⟩
  · rw [tick_no_capture cfg t s h0]
    obtain ⟨b, hlb_eq, hstb⟩ := h5.resolve_left h0
    have hbt : b ≤ t := by rw [hlb_eq] at hlb; exact hlb
    have he : (0 : ℚ) ≤ t - s.startTime := by linarith
    refine ⟨?_, ?_, h3, h4, Or.inr ⟨t, rfl, by linarith⟩⟩
    · exact h3.trans (le_easeFrom cfg hD h4 he)
    · exact easeFrom_le_max cfg h4 _

/-- Running any well-formed operation sequence preserves the range
invariant (for some final timestamp bound). -/
theorem runOps_inRange (cfg : Config) (hD : 0 < cfg.animationDuration) :
    ∀ (ops : List Op) (lb : Option ℚ) (s : State),
      InRange cfg lb s → GoodOps cfg lb ops →
      ∃ lb2, InRange cfg lb2 (runOps cfg s ops) := by
  intro ops
  induction ops with
  | nil => exact fun lb s hs _ => ⟨lb, hs⟩
  | cons op rest ih =>
    intro lb s hs hops
    cases op with
    | playPause => exact ih lb _ (inRange_playPause cfg lb s hs) hops
    | reset =>
        exact ih lb _ (inRange_reset cfg lb s ((hs.1).trans hs.2.1)) hops
    | slider v =>
        exact ih lb _ (inRange_slider cfg lb v s hs hops.1 hops.2.1) hops.2.2
    | tick t =>
        exact ih (some t) _ (inRange_tick cfg hD lb t s hs hops.1) hops.2

end Ctrl

/-- C3 counterexample: with unrestricted slider values the invariant
fails — `setDisplacement(-5)` from the initial state is a reachable
one-step sequence whose resulting displacement is `-5 < 0` (the handler
does not clamp). -/
theorem C3_counterexample :
    Ctrl.Reachable BlockSim.cfg (Ctrl.handleSliderChange (-5) Ctrl.initState) ∧
    (Ctrl.handleSliderChange (-5) Ctrl.initState).displacement = -5 ∧
    (Ctrl.handleSliderChange (-5) Ctrl.initState).displacement < 0 := by
  exact ⟨Ctrl.Reachable.slider (-5) Ctrl.Reachable.init, rfl,
    by norm_num [Ctrl.handleSliderChange, Ctrl.initState]⟩

/-- C3 amended: `0 ≤ displacement ≤ maxDisplacement` holds in every
state reachable from the initial state by sequences of `play()`,
`pause()`, `reset()`, `setDisplacement(v)` with `v ∈ [0,
maxDisplacement]` (the range the host slider delivers), and `tick(t)`
with non-decreasing timestamps (§5's host ordering guarantee), for any
configuration with non-negative maximum and positive duration. -/
theorem C3_displacement_in_range (cfg : Ctrl.Config)
    (hmax : 0 ≤ cfg.maxDisplacement) (hD : 0 < cfg.animationDuration)
    (ops : List Ctrl.Op) (hops : Ctrl.GoodOps cfg none ops) :
    0 ≤ (Ctrl.runOps cfg Ctrl.initState ops).displacement ∧
    (Ctrl.runOps cfg Ctrl.initState ops).displacement ≤ cfg.maxDisplacement := by
  have h0 : Ctrl.InRange cfg none Ctrl.initState :=
    ⟨le_rfl, hmax, le_rfl, hmax, Or.inl rfl⟩
  obtain ⟨lb2, h⟩ := Ctrl.runOps_inRange cfg hD ops none Ctrl.initState h0 hops
  exact ⟨h.1, h.2.1⟩

/-- C3 witness: the isometric-block configuration and the sequence
play, tick(16), tick(1516), slider(10), reset, tick(2000). -/
theorem C3_witness :
    (0 : ℚ) ≤ BlockSim.cfg.maxDisplacement ∧
    (0 : ℚ) < BlockSim.cfg.animationDuration ∧
    Ctrl.GoodOps BlockSim.cfg none
      [.playPause, .tick 16, .tick 1516, .slider 10, .reset, .tick 2000] ∧
    (0 ≤ (Ctrl.runOps BlockSim.cfg Ctrl.initState
      [.playPause, .tick 16, .tick 1516, .slider 10, .reset, .tick 2000]).displacement ∧
    (Ctrl.runOps BlockSim.cfg Ctrl.initState
      [.playPause, .tick 16, .tick 1516, .slider 10, .reset,
        .tick 2000]).displacement ≤ BlockSim.cfg.maxDisplacement) := by
  refine ⟨?_, ?_, ?_, ?_⟩
  · norm_num [BlockSim.cfg, BlockSim.MAX_DISPLACEMENT]
  · norm_num [BlockSim.cfg, BlockSim.ANIMATION_DURATION]
  · norm_num [Ctrl.GoodOps, Ctrl.leOpt, BlockSim.cfg, BlockSim.MAX_DISPLACEMENT]
  · exact C3_displacement_in_range BlockSim.cfg
      (by norm_num [BlockSim.cfg, BlockSim.MAX_DISPLACEMENT])
      (by norm_num [BlockSim.cfg, BlockSim.ANIMATION_DURATION]) _
      (by norm_num [Ctrl.GoodOps, Ctrl.leOpt, BlockSim.cfg, BlockSim.MAX_DISPLACEMENT])

namespace Ctrl

/-- In every reachable state that is playing, the displacement is
strictly below the maximum, and so is the captured start displacement
whenever the start marker has been captured. -/
theorem reachable_playing_lt (cfg : Config) (hmax : 0 < cfg.maxDisplacement)
    {s : State} (hr : Reachable cfg s) :
    s.isPlaying = true → s.displacement < cfg.maxDisplacement ∧
      (s.startTime ≠ 0 → s.startDisplacement < cfg.maxDisplacement) := by
  induction hr with
  | init => intro h; exact absurd h (by simp [initState])
  | @playPause s hr ih =>
      intro h
      rw [handlePlayPause_eq] at h ⊢
      by_cases hb : s.isPlaying = true
      · by_cases hc : cfg.maxDisplacement ≤ s.displacement <;> simp [hb, hc] at h
      · by_cases hc : cfg.maxDisplacement ≤ s.displacement
        · simp only [hb, hc, if_true, if_false, ite_true, ite_false,
            Bool.false_eq_true, if_neg, if_pos]
          exact ⟨hmax, fun hne => absurd rfl hne⟩
        · simp only [hb, hc, if_true, if_false, ite_true, ite_false,
            Bool.false_eq_true, if_neg, if_pos]
          exact ⟨lt_of_not_le hc, fun hne => absurd rfl hne⟩
  | @reset s hr ih => intro h; exact absurd h (by simp [handleReset])
  | @slider s v hr ih => intro h; exact absurd h (by simp [handleSliderChange])
  | @tick s t hr ih =>
      intro h
      by_cases h0 : s.startTime = 0
      · rw [tick_capture cfg t s h0] at h ⊢
        have hsp : s.isPlaying = true := h
        obtain ⟨hd, _⟩ := ih hsp
        exact ⟨hd, fun _ => hd⟩
      · rw [tick_no_capture cfg t s h0] at h ⊢
        by_cases hp : (1 : ℚ) ≤ min ((t - s.startTime) / cfg.animationDuration) 1
        · rw [if_pos hp] at h
          exact absurd h (by simp)
        · rw [if_neg hp] at h
          have hsp : s.isPlaying = true := h
          have hprog : min ((t - s.startTime) / cfg.animationDuration) 1 < 1 :=
            lt_of_not_le hp
          obtain ⟨hd, hsd⟩ := ih hsp
          have hd0 : s.startDisplacement < cfg.maxDisplacement := hsd h0
          have heased : easedCubic (min ((t - s.startTime) / cfg.animationDuration) 1) < 1 :=
            easedCubic_lt_one hprog
          constructor
          · show easeFrom cfg s.startDisplacement (t - s.startTime) < cfg.maxDisplacement
            have hmul : (cfg.maxDisplacement - s.startDisplacement) *
                easedCubic (min ((t - s.startTime) / cfg.animationDuration) 1) <
                (cfg.maxDisplacement - s.startDisplacement) * 1 :=
              mul_lt_mul_of_pos_left heased (by linarith)
            unfold easeFrom
            linarith
          · intro _
            exact hd0

end Ctrl

/-- C6: in every reachable playing state (for a positive maximum
displacement), `pause()` — the play/pause toggle taken from a playing
state — produces exactly the same state with `isPlaying := false`:
displacement and both start markers are untouched. -/
theorem C6_pause_preserves_displacement (cfg : Ctrl.Config)
    (hmax : 0 < cfg.maxDisplacement) (s : Ctrl.State)
    (hr : Ctrl.Reachable cfg s) (hp : s.isPlaying = true) :
    Ctrl.handlePlayPause cfg s = { s with isPlaying := false } := by
  have hlt := (Ctrl.reachable_playing_lt cfg hmax hr hp).1
  rw [Ctrl.handlePlayPause_eq]
  simp [hp, hlt.not_le]

/-- C6 witness: the isometric-block configuration, pausing the state
reached by pressing play once from the initial state. -/
theorem C6_witness :
    (0 : ℚ) < BlockSim.cfg.maxDisplacement ∧
    (Ctrl.handlePlayPause BlockSim.cfg Ctrl.initState).isPlaying = true ∧
    Ctrl.handlePlayPause BlockSim.cfg
        (Ctrl.handlePlayPause BlockSim.cfg Ctrl.initState) =
      { Ctrl.handlePlayPause BlockSim.cfg Ctrl.initState with isPlaying := false } :=
  ⟨by norm_num [BlockSim.cfg, BlockSim.MAX_DISPLACEMENT],
   by norm_num [Ctrl.handlePlayPause, Ctrl.initState, BlockSim.cfg,
     BlockSim.MAX_DISPLACEMENT],
   C6_pause_preserves_displacement BlockSim.cfg
     (by norm_num [BlockSim.cfg, BlockSim.MAX_DISPLACEMENT]) _
     (Ctrl.Reachable.playPause Ctrl.Reachable.init)
     (by norm_num [Ctrl.handlePlayPause, Ctrl.initState, BlockSim.cfg,
       BlockSim.MAX_DISPLACEMENT])⟩

namespace Ctrl

/-- A tick trace always starts at its initial state. -/
theorem tickTrace_eq_cons (cfg : Config) (s : State) (ts : List ℚ) :
    ∃ l, tickTrace cfg s ts = s :: l := by
  cases ts <;> exact ⟨_, rfl⟩

/-- Pressing play from a non-playing state leaves the start marker
unset. -/
theorem play_startTime_zero (cfg : Config) (s : State) (hp : s.isPlaying = false) :
    (handlePlayPause cfg s).startTime = 0 := by
  rw [handlePlayPause_eq]
  simp only [hp, Bool.false_eq_true, if_false, ite_false]
  split <;> rfl

/-- The play/pause toggle never leaves the displacement above the
maximum (for a non-negative maximum). -/
theorem playPause_disp_le (cfg : Config) (s : State)
    (hmax : 0 ≤ cfg.maxDisplacement) :
    (handlePlayPause cfg s).displacement ≤ cfg.maxDisplacement := by
  rw [handlePlayPause_eq]
  by_cases hb : s.isPlaying = true <;>
    by_cases hc : cfg.maxDisplacement ≤ s.displacement <;>
      simp only [hb, hc, if_true, if_false, ite_true, ite_false,
        Bool.false_eq_true, if_neg, if_pos]
  · exact hmax
  · exact (lt_of_not_le hc).le
  · exact hmax
  · exact (lt_of_not_le hc).le

/-- Within one captured animation epoch (start marker nonzero), ticks at
increasing timestamps produce a non-decreasing displacement trace. -/
theorem epoch_chain (cfg : Config) (hD : 0 < cfg.animationDuration) :
    ∀ (ts : List ℚ) (s : State) (b : ℚ),
      s.startTime ≠ 0 → s.startDisplacement ≤ cfg.maxDisplacement →
      s.displacement = easeFrom cfg s.startDisplacement (b - s.startTime) →
      List.Chain (· < ·) b ts →
      List.Chain' (· ≤ ·) ((tickTrace cfg s ts).map State.displacement) := by
  intro ts
  induction ts with
  | nil =>
      intro s b _ _ _ _
      simp [tickTrace]
  | cons t rest ih =>
      intro s b h0 hd0 hdisp hchain
      rw [List.chain_cons] at hchain
      obtain ⟨hbt, hchain2⟩ := hchain
      have htick := tick_no_capture cfg t s h0
      have hst2 : (tick cfg t s).startTime = s.startTime := by rw [htick]
      have hsd2 : (tick cfg t s).startDisplacement = s.startDisplacement := by
        rw [htick]
      have hdisp2 : (tick cfg t s).displacement =
          easeFrom cfg s.startDisplacement (t - s.startTime) := by rw [htick]
      show List.Chain' (· ≤ ·)
        ((s :: tickTrace cfg (tick cfg t s) rest).map State.displacement)
      obtain ⟨l2, hl2⟩ := tickTrace_eq_cons cfg (tick cfg t s) rest
      rw [List.map_cons, hl2, List.map_cons, List.chain'_cons]
      constructor
      · rw [hdisp, hdisp2]
        exact easeFrom_mono cfg hD hd0 (by linarith)
      · rw [← List.map_cons, ← hl2]
        exact ih (tick cfg t s) t (by rw [hst2]; exact h0)
          (by rw [hsd2]; exact hd0) (by rw [hdisp2, hsd2, hst2]) hchain2

/-- Within one captured animation epoch, the displacement after a
non-empty run of ticks is determined by the last timestamp. -/
theorem epoch_run (cfg : Config) :
    ∀ (ts : List ℚ) (s : State), s.startTime ≠ 0 → ∀ (h : ts ≠ []),
      (runTicks cfg s ts).displacement =
        easeFrom cfg s.startDisplacement (ts.getLast h - s.startTime) := by
  intro ts
  induction ts with
  | nil => intro s _ h; exact absurd rfl h
  | cons t rest ih =>
      intro s h0 h
      cases rest with
      | nil =>
          show (tick cfg t s).displacement =
            easeFrom cfg s.startDisplacement (t - s.startTime)
          rw [tick_no_capture cfg t s h0]
      | cons t2 rest2 =>
          show (runTicks cfg (tick cfg t s) (t2 :: rest2)).displacement = _
          have htick := tick_no_capture cfg t s h0
          have hst2 : (tick cfg t s).startTime = s.startTime := by rw [htick]
          have hsd2 : (tick cfg t s).startDisplacement = s.startDisplacement := by
            rw [htick]
          rw [ih (tick cfg t s) (by rw [hst2]; exact h0) (List.cons_ne_nil t2 rest2)]
          rw [hst2, hsd2, List.getLast_cons (List.cons_ne_nil t2 rest2)]

end Ctrl

/-- C4: pressing play from a non-playing state and ticking at strictly
increasing timestamps (the first one nonzero) yields a non-decreasing
displacement trace, and as soon as the elapsed time since the first tick
reaches the animation duration, the displacement is exactly the maximum
displacement. -/
theorem C4_monotone_and_converges (cfg : Ctrl.Config)
    (hmax : 0 ≤ cfg.maxDisplacement) (hD : 0 < cfg.animationDuration)
    (s0 : Ctrl.State) (hp : s0.isPlaying = false)
    (t1 : ℚ) (l : List ℚ) (h1 : t1 ≠ 0)
    (hchain : List.Chain' (· < ·) (t1 :: l)) :
    List.Chain' (· ≤ ·)
      ((Ctrl.tickTrace cfg (Ctrl.handlePlayPause cfg s0) (t1 :: l)).map
        Ctrl.State.displacement) ∧
    (cfg.animationDuration ≤ (t1 :: l).getLast (List.cons_ne_nil t1 l) - t1 →
      (Ctrl.runTicks cfg (Ctrl.handlePlayPause cfg s0) (t1 :: l)).displacement =
        cfg.maxDisplacement) := by
  have hsp_st : (Ctrl.handlePlayPause cfg s0).startTime = 0 :=
    Ctrl.play_startTime_zero cfg s0 hp
  have hd0 : (Ctrl.handlePlayPause cfg s0).displacement ≤ cfg.maxDisplacement :=
    Ctrl.playPause_disp_le cfg s0 hmax
  have hcap := Ctrl.tick_capture cfg t1 (Ctrl.handlePlayPause cfg s0) hsp_st
  have hst1 : (Ctrl.tick cfg t1 (Ctrl.handlePlayPause cfg s0)).startTime = t1 := by
    rw [hcap]
  have hsd1 : (Ctrl.tick cfg t1 (Ctrl.handlePlayPause cfg s0)).startDisplacement =
      (Ctrl.handlePlayPause cfg s0).displacement := by rw [hcap]
  have hdi1 : (Ctrl.tick cfg t1 (Ctrl.handlePlayPause cfg s0)).displacement =
      (Ctrl.handlePlayPause cfg s0).displacement := by rw [hcap]
  have hchain2 : List.Chain (· < ·) t1 l := hchain
  constructor
  · show List.Chain' (· ≤ ·)
      ((Ctrl.handlePlayPause cfg s0 ::
        Ctrl.tickTrace cfg (Ctrl.tick cfg t1 (Ctrl.handlePlayPause cfg s0)) l).map
          Ctrl.State.displacement)
    obtain ⟨l2, hl2⟩ :=
      Ctrl.tickTrace_eq_cons cfg (Ctrl.tick cfg t1 (Ctrl.handlePlayPause cfg s0)) l
    rw [List.map_cons, hl2, List.map_cons, List.chain'_cons]
    constructor
    · rw [hdi1]
    · rw [← List.map_cons, ← hl2]
      refine Ctrl.epoch_chain cfg hD l _ t1 ?_ ?_ ?_ hchain2
      · rw [hst1]; exact h1
      · rw [hsd1]; exact hd0
      · rw [hdi1, hsd1, hst1, sub_self, Ctrl.easeFrom_zero]
  · intro hdur
    cases l with
    | nil =>
        exfalso
        have h00 : (t1 : ℚ) - t1 = 0 := sub_self t1
        rw [show ([t1].getLast (List.cons_ne_nil t1 [])) = t1 from rfl, h00] at hdur
        linarith
    | cons t2 l2 =>
        show (Ctrl.runTicks cfg (Ctrl.tick cfg t1 (Ctrl.handlePlayPause cfg s0))
          (t2 :: l2)).displacement = cfg.maxDisplacement
        rw [Ctrl.epoch_run cfg (t2 :: l2) _ (by rw [hst1]; exact h1)
          (List.cons_ne_nil t2 l2)]
        rw [hst1, hsd1]
        rw [List.getLast_cons (List.cons_ne_nil t2 l2)] at hdur
        exact Ctrl.easeFrom_of_duration_le cfg hD _ hdur

/-- C4 witness: the isometric-block configuration, playing from the
initial state with ticks at `1, 1501, 3001`. -/
theorem C4_witness :
    (0 : ℚ) ≤ BlockSim.cfg.maxDisplacement ∧
    (0 : ℚ) < BlockSim.cfg.animationDuration ∧
    Ctrl.initState.isPlaying = false ∧ (1 : ℚ) ≠ 0 ∧
    List.Chain' (· < ·) [(1 : ℚ), 1501, 3001] ∧
    (List.Chain' (· ≤ ·)
      ((Ctrl.tickTrace BlockSim.cfg (Ctrl.handlePlayPause BlockSim.cfg Ctrl.initState)
        ((1 : ℚ) :: [1501, 3001])).map Ctrl.State.displacement) ∧
    (BlockSim.cfg.animationDuration ≤
        ((1 : ℚ) :: [1501, 3001]).getLast (List.cons_ne_nil 1 [1501, 3001]) - 1 →
      (Ctrl.runTicks BlockSim.cfg (Ctrl.handlePlayPause BlockSim.cfg Ctrl.initState)
        ((1 : ℚ) :: [1501, 3001])).displacement = BlockSim.cfg.maxDisplacement)) :=
  ⟨by norm_num [BlockSim.cfg, BlockSim.MAX_DISPLACEMENT],
   by norm_num [BlockSim.cfg, BlockSim.ANIMATION_DURATION],
   rfl, by norm_num,
   by norm_num [List.chain'_cons, List.chain'_singleton],
   C4_monotone_and_converges BlockSim.cfg
     (by norm_num [BlockSim.cfg, BlockSim.MAX_DISPLACEMENT])
     (by norm_num [BlockSim.cfg, BlockSim.ANIMATION_DURATION])
     Ctrl.initState rfl 1 [1501, 3001] (by norm_num)
     (by norm_num [List.chain'_cons, List.chain'_singleton])⟩
